import Mathlib

/-!
Verification of the NimBLE GATT client procedure engine
(`nimble/host/src/ble_gattc.c`) against its natural-language
specification.  The definitions below are a shallow embedding of the C
functions named in their doc comments; external collaborators (the ATT
transport, the connection manager, the security store, the application
callbacks) are passed in as explicit inputs, and the observable actions
(transmits, callbacks, connection termination, record release) are
returned as event lists.
-/

namespace BleGattc

/-! ### Constants

Error codes from `ble_hs.h` and ATT/HCI codes from `ble_att.h` /
`ble_hs_hci` (headers outside this file; the standard NimBLE values are
used — the claims depend only on which named code appears, never on the
numeric value). -/

def BLE_HS_ENOTCONN : Nat := 7
def BLE_HS_ENOMEM : Nat := 6
def BLE_HS_EBADDATA : Nat := 10
def BLE_HS_ETIMEOUT : Nat := 13
def BLE_HS_EDONE : Nat := 14
def BLE_HS_EAUTHEN : Nat := 23
def BLE_HS_EENCRYPT : Nat := 25
def BLE_HS_ERR_ATT_BASE : Nat := 256
def BLE_ATT_ERR_INSUFFICIENT_AUTHEN : Nat := 5
def BLE_ATT_ERR_ATTR_NOT_FOUND : Nat := 10
def BLE_ATT_ERR_INSUFFICIENT_ENC : Nat := 15
def BLE_ATT_EXEC_WRITE_F_CANCEL : Nat := 0
def BLE_ATT_EXEC_WRITE_F_EXECUTE : Nat := 1
def BLE_ATT_PREP_WRITE_CMD_BASE_SZ : Nat := 5
def BLE_ERR_REM_USER_CONN_TERM : Nat := 19
def BLE_HS_FOREVER : Nat := 2147483647

/-! GATT procedure op codes, `ble_gattc.c` lines 89-107. -/

def BLE_GATT_OP_MTU : Nat := 0
def BLE_GATT_OP_DISC_ALL_SVCS : Nat := 1
def BLE_GATT_OP_DISC_SVC_UUID : Nat := 2
def BLE_GATT_OP_FIND_INC_SVCS : Nat := 3
def BLE_GATT_OP_DISC_ALL_CHRS : Nat := 4
def BLE_GATT_OP_DISC_CHR_UUID : Nat := 5
def BLE_GATT_OP_DISC_ALL_DSCS : Nat := 6
def BLE_GATT_OP_READ : Nat := 7
def BLE_GATT_OP_READ_UUID : Nat := 8
def BLE_GATT_OP_READ_LONG : Nat := 9
def BLE_GATT_OP_READ_MULT : Nat := 10
def BLE_GATT_OP_READ_MULT_VAR : Nat := 11
def BLE_GATT_OP_WRITE : Nat := 12
def BLE_GATT_OP_WRITE_LONG : Nat := 13
def BLE_GATT_OP_WRITE_RELIABLE : Nat := 14
def BLE_GATT_OP_INDICATE : Nat := 15
def BLE_GATT_OP_CNT : Nat := 16
def BLE_GATT_OP_NONE : Nat := 255

/-- `BLE_GATTC_PROC_F_STALLED` — procedure stalled due to resource
exhaustion (`ble_gattc.c` line 110). -/
def BLE_GATTC_PROC_F_STALLED : Nat := 1

/-- `BLE_GATTC_UNRESPONSIVE_TIMEOUT_MS` — maximum time to wait for a single
ATT response (`ble_gattc.c` line 87). -/
def BLE_GATTC_UNRESPONSIVE_TIMEOUT_MS : Nat := 30000

/-- Modelled from the spec: `MYNEWT_VAL(BLE_GATT_RESUME_RATE)` is a
configuration value not present under `src/`; the spec calls it "a
millisecond-granularity config".  The NimBLE default of 1000 ms is used;
no claim depends on the numeric value. -/
def BLE_GATT_RESUME_RATE : Nat := 1000

/-- Modelled from the spec: `ble_npl_time_ms_to_ticks32` is OS-porting
code not present under `src/`; ticks are modelled at millisecond
granularity (identity conversion).  No claim depends on the tick rate. -/
def ble_npl_time_ms_to_ticks32 (ms : Nat) : Nat := ms

/-! ### Machine-integer helpers -/

/-- 2^32, the modulus of `uint32_t` arithmetic. -/
def U32 : Nat := 4294967296

/-- Reduction to a `uint32_t` value. -/
def u32 (n : Nat) : Nat := n % U32

/-- Reduction to a `uint16_t` value. -/
def u16 (n : Nat) : Nat := n % 65536

/-- `uint32_t` subtraction `a - b` (the bit pattern, as a `Nat`). -/
def u32sub (a b : Nat) : Nat := (a + U32 - u32 b) % U32

/-- Whether a `uint32_t` bit pattern is `<= 0` when read as `int32_t`
(i.e. zero or with the sign bit set). -/
def i32NonPos (d : Nat) : Prop := d = 0 ∨ 2147483648 ≤ d

instance (d : Nat) : Decidable (i32NonPos d) := by
  unfold i32NonPos; infer_instance

/-! ### Procedure records

`struct ble_gattc_proc` (`ble_gattc.c` lines 112-241): identity fields
plus a union of per-kind state.  The identity fields are embedded here;
the union variants a claim needs (`disc_all_svcs`, `read_long`,
`write_long`) are embedded as dedicated structures further below, each
carrying the identity fields it uses. -/

structure GattProc where
  connHandle : Nat
  cid : Nat
  op : Nat
  flags : Nat
  expOsTicks : Nat
deriving DecidableEq, Repr

/-- What became of a procedure record after `ble_gattc_process_status`:
re-inserted into the table, or released to the pool. -/
inductive ProcDisposition where
  | inserted (p : GattProc)
  | freed (p : GattProc)
deriving DecidableEq, Repr

/-- Observable actions of the engine: ATT transmits, application
callbacks, connection termination, record release. -/
inductive GEvent where
  /-- `ble_att_clt_tx_read_group_type` -/
  | txReadGroupType (connHandle cid startHandle endHandle : Nat)
  /-- `ble_att_clt_tx_read` -/
  | txRead (connHandle cid attHandle : Nat)
  /-- `ble_att_clt_tx_read_blob` -/
  | txReadBlob (connHandle cid attHandle offset : Nat)
  /-- `ble_att_clt_tx_prep_write` (the chunk is the payload slice sent) -/
  | txPrepWrite (connHandle cid attHandle offset : Nat) (chunk : List Nat)
  /-- `ble_att_clt_tx_exec_write` -/
  | txExecWrite (connHandle cid flag : Nat)
  /-- `ble_gattc_read_long_cb`: `attr = some (handle, offset, dataLen)`
      when a `ble_gatt_attr` is passed, `none` for a NULL attr. -/
  | rlCb (connHandle status attHandle : Nat) (attr : Option (Nat × Nat × Nat))
  /-- `ble_gattc_write_long_cb` -/
  | wlCb (connHandle status attHandle : Nat)
  /-- `ble_gattc_disc_all_svcs_cb`: `svc = some (startHandle, endHandle)`
      on a data callback; `none` when the service argument's fields are
      indeterminate (error paths pass a partially-initialized struct). -/
  | svcCb (connHandle status : Nat) (svc : Option (Nat × Nat))
  /-- the kind's error handler delivering its single application callback
      with the given status (each of the sixteen `ble_gattc_*_err` /
      `ble_gatts_indicate_err` handlers invokes its procedure's callback
      exactly once; for a non-ATT status such as `BLE_HS_ENOTCONN` the
      status is passed through unchanged); `attHandle` is the handle the
      handler receives -/
  | errCb (p : GattProc) (status attHandle : Nat)
  /-- the kind's `ble_gattc_*_tmo` handler, each of which delivers the
      given status (`BLE_HS_ETIMEOUT`) to the procedure's application
      callback -/
  | tmoCb (p : GattProc) (status : Nat)
  /-- `ble_gap_terminate` -/
  | terminate (connHandle reason : Nat)
  /-- `ble_gattc_proc_free` (record released to the pool) -/
  | procFreed (p : GattProc)
  /-- a kind-specific resume function re-attempting its pending request
      for the given record -/
  | resumeAttempt (p : GattProc)
deriving DecidableEq, Repr

/-! ### Insertion, expiry timer, status processing -/

/-- `ble_gattc_proc_set_exp_timer` (`ble_gattc.c` lines 843-848):
`exp_os_ticks = now + ms_to_ticks(30000)`. -/
def ble_gattc_proc_set_exp_timer (now : Nat) (p : GattProc) : GattProc :=
  { p with expOsTicks := u32 (now + ble_npl_time_ms_to_ticks32 BLE_GATTC_UNRESPONSIVE_TIMEOUT_MS) }

/-- `ble_gattc_process_status` (`ble_gattc.c` lines 872-889): status 0
inserts the record (arming the expiry timer unless the record is
stalled); any nonzero status frees the record. -/
def ble_gattc_process_status (now : Nat) (p : GattProc) (status : Nat) :
    ProcDisposition :=
  if status = 0 then
    .inserted (if p.flags &&& BLE_GATTC_PROC_F_STALLED = 0 then
                 ble_gattc_proc_set_exp_timer now p
               else p)
  else
    .freed p

/-! ### C1: the discover-all-services initiator -/

/-- Result of an initiator call: its return code, the record's
disposition, and the emitted events. -/
structure InitiateResult where
  rc : Nat
  disposition : ProcDisposition
  events : List GEvent
deriving DecidableEq, Repr

/-- `ble_gattc_disc_all_svcs_tx` (`ble_gattc.c` lines 1659-1675): emits a
Read By Group Type request over `[prev+1, 0xffff]` and returns the
transport's status unchanged.  `txStatus` is the value returned by
`ble_att_clt_tx_read_group_type`. -/
def ble_gattc_disc_all_svcs_tx (connHandle cid prevHandle txStatus : Nat) :
    Nat × List GEvent :=
  (txStatus, [.txReadGroupType connHandle cid (prevHandle + 1) 65535])

/-- `ble_gattc_disc_all_svcs` (`ble_gattc.c` lines 1794-1850), for a
successful record allocation (the claim concerns the transmit, not pool
exhaustion).  The freshly prepared record has `prev_handle = 0` and no
flags; the first TX result is fed to `ble_gattc_process_status`, and the
initiator returns the TX status.  No application callback runs on this
path. -/
def ble_gattc_disc_all_svcs (now connHandle cid txStatus : Nat) :
    InitiateResult :=
  let proc : GattProc :=
    { connHandle := connHandle, cid := cid, op := BLE_GATT_OP_DISC_ALL_SVCS,
      flags := 0, expOsTicks := 0 }
  let t := ble_gattc_disc_all_svcs_tx connHandle cid 0 txStatus
  { rc := t.1,
    disposition := ble_gattc_process_status now proc t.1,
    events := t.2 }

/-! ### C8: signed write -/

/-- Result of `ble_gattc_signed_write`: return code, whether
`ble_att_clt_tx_signed_write_cmd` was reached, and whether the payload
mbuf was released by the error path. -/
structure SignedWriteResult where
  rc : Nat
  txSent : Bool
  mbufFreed : Bool
deriving DecidableEq, Repr

/-- `ble_gattc_signed_write` (`ble_gattc.c` lines 4356-4410).
`connFindRc` is the result of `ble_gap_conn_find`; `encrypted` is
`desc.sec_state.encrypted == 1`; `storeRc` is the result of
`ble_store_read_our_sec`; `csrkPresent` is `value_sec.csrk_present == 1`;
`txStatus` is the transport result.  Every `goto err` path frees the
payload chain; on success ownership passes to the transport. -/
def ble_gattc_signed_write (connFindRc : Nat) (encrypted : Bool)
    (storeRc : Nat) (csrkPresent : Bool) (txStatus : Nat) :
    SignedWriteResult :=
  if connFindRc ≠ 0 then
    { rc := connFindRc, txSent := false, mbufFreed := true }
  else if encrypted then
    { rc := BLE_HS_EENCRYPT, txSent := false, mbufFreed := true }
  else if storeRc ≠ 0 then
    { rc := storeRc, txSent := false, mbufFreed := true }
  else if ¬ csrkPresent then
    { rc := BLE_HS_EAUTHEN, txSent := false, mbufFreed := true }
  else if txStatus ≠ 0 then
    { rc := txStatus, txSent := true, mbufFreed := true }
  else
    { rc := 0, txSent := true, mbufFreed := false }

/-! ### Resume-status processing (kind level)

`ble_gattc_process_resume_status` (`ble_gattc.c` lines 898-912) acts on
the record's flags (via `ble_gattc_proc_set_resume_timer`) and maps a
transient `BLE_HS_ENOMEM` to success.  At the kind level only the flags
matter; the global resume clock is threaded explicitly in the timer
section below. -/

/-- `ble_gattc_process_resume_status`, flags-level view: returns the new
flags, the resulting status, and whether the resume clock was armed
(i.e. `ble_gattc_proc_set_resume_timer` ran). -/
def ble_gattc_process_resume_status_flags (flags status : Nat) :
    Nat × Nat × Bool :=
  if status = 0 then (flags, 0, false)
  else if status = BLE_HS_ENOMEM then
    (flags ||| BLE_GATTC_PROC_F_STALLED, 0, true)
  else (flags, status, false)

/-! ### C2: read long -/

/-- The `read_long` variant of the procedure union
(`ble_gattc.c` lines 196-201), with the record's identity fields. -/
structure ReadLongProc where
  connHandle : Nat
  cid : Nat
  flags : Nat
  handle : Nat
  offset : Nat
deriving DecidableEq, Repr

/-- `ble_gattc_read_long_tx` (`ble_gattc.c` lines 3897-3919): a plain
Read at offset 0, a Read Blob at any other offset; the transport status
is returned unchanged. -/
def ble_gattc_read_long_tx (p : ReadLongProc) (txStatus : Nat) :
    Nat × List GEvent :=
  if p.offset = 0 then (txStatus, [.txRead p.connHandle p.cid p.handle])
  else (txStatus, [.txReadBlob p.connHandle p.cid p.handle p.offset])

/-- `ble_gattc_read_long_resume` (`ble_gattc.c` lines 3921-3935):
re-attempt the TX; `BLE_HS_ENOMEM` stalls the record and succeeds; a
fatal status is reported through the callback and returned. -/
def ble_gattc_read_long_resume (p : ReadLongProc) (txStatus : Nat) :
    Nat × ReadLongProc × List GEvent :=
  let t := ble_gattc_read_long_tx p txStatus
  let r := ble_gattc_process_resume_status_flags p.flags t.1
  let p2 := { p with flags := r.1 }
  if r.2.1 ≠ 0 then (r.2.1, p2, t.2 ++ [.rlCb p.connHandle r.2.1 0 none])
  else (0, p2, t.2)

/-- `ble_gattc_read_long_rx_read_rsp` (`ble_gattc.c` lines 3953-4001).
`dataLen` is `OS_MBUF_PKTLEN(*om)`; `mtu` is
`ble_att_mtu_by_cid(conn_handle, cid)` (0 when no longer connected);
`cbRet` is the application callback's return value for the chunk
delivery; `txStatus` is the transport result for the follow-up request
when one is attempted.  Returns the dispatch status (0 to keep the
procedure, `BLE_HS_EDONE` to end it), the updated record, and the
events in order. -/
def ble_gattc_read_long_rx_read_rsp (p : ReadLongProc)
    (status dataLen mtu cbRet txStatus : Nat) :
    Nat × ReadLongProc × List GEvent :=
  let ev0 := GEvent.rlCb p.connHandle status 0 (some (p.handle, p.offset, dataLen))
  if cbRet ≠ 0 ∨ status ≠ 0 then (BLE_HS_EDONE, p, [ev0])
  else if mtu = 0 then (BLE_HS_EDONE, p, [ev0])
  else if dataLen < mtu - 1 then
    (BLE_HS_EDONE, p, [ev0, .rlCb p.connHandle BLE_HS_EDONE 0 none])
  else
    let p2 := { p with offset := u16 (p.offset + dataLen) }
    let r := ble_gattc_read_long_resume p2 txStatus
    if r.1 ≠ 0 then (BLE_HS_EDONE, r.2.1, ev0 :: r.2.2)
    else (0, r.2.1, ev0 :: r.2.2)

/-! ### C3: write long -/

/-- The `write_long` variant of the procedure union
(`ble_gattc.c` lines 221-226), with the record's identity fields.
`om` is the owned payload (`write_long.attr.om`) as a byte list;
`attrOffset` is `write_long.attr.offset`; `length` is the
currently-prepared fragment length. -/
structure WriteLongProc where
  connHandle : Nat
  cid : Nat
  flags : Nat
  attrHandle : Nat
  attrOffset : Nat
  om : List Nat
  length : Nat
deriving DecidableEq, Repr

/-- `ble_gattc_write_long_tx` (`ble_gattc.c` lines 4599-4654).  `mtu` is
`ble_att_mtu_by_cid`; `allocOk` models mbuf allocation for the chunk;
`txStatus` is the transport result of whichever request is sent.  When
no payload remains an Execute Write (commit) is sent; otherwise a
Prepare Write carrying the next slice. -/
def ble_gattc_write_long_tx (p : WriteLongProc) (mtu : Nat)
    (allocOk : Bool) (txStatus : Nat) :
    Nat × WriteLongProc × List GEvent :=
  let max_sz : Int := (mtu : Int) - (BLE_ATT_PREP_WRITE_CMD_BASE_SZ : Int)
  if max_sz ≤ 0 then (BLE_HS_ENOTCONN, p, [])
  else
    let write_len : Int := min max_sz ((p.om.length : Int) - (p.attrOffset : Int))
    if write_len ≤ 0 then
      (txStatus, p, [.txExecWrite p.connHandle p.cid BLE_ATT_EXEC_WRITE_F_EXECUTE])
    else
      let p2 := { p with length := write_len.toNat }
      if allocOk then
        (txStatus, p2,
         [.txPrepWrite p.connHandle p.cid p.attrHandle p.attrOffset
            ((p.om.drop p.attrOffset).take write_len.toNat)])
      else (BLE_HS_ENOMEM, p2, [])

/-- `ble_gattc_write_long_resume` (`ble_gattc.c` lines 4656-4670). -/
def ble_gattc_write_long_resume (p : WriteLongProc) (mtu : Nat)
    (allocOk : Bool) (txStatus : Nat) :
    Nat × WriteLongProc × List GEvent :=
  let t := ble_gattc_write_long_tx p mtu allocOk txStatus
  let r := ble_gattc_process_resume_status_flags t.2.1.flags t.1
  let p3 := { t.2.1 with flags := r.1 }
  if r.2.1 ≠ 0 then (r.2.1, p3, t.2.2 ++ [.wlCb p3.connHandle r.2.1 0])
  else (0, p3, t.2.2)

/-- `ble_gattc_write_long_rx_prep` (`ble_gattc.c` lines 4701-4773).
`status` is the response status, `handle`/`offset` the echoed fields,
`rxom` the echoed bytes.  The response is verified in source order:
expecting-prepare, handle, offset, overflow, length, byte compare; only
the byte-compare failure transmits an Execute Write (cancel) before the
`BLE_HS_EBADDATA` callback.  On a verified response the offset advances
and the follow-up is attempted via resume (whose fatal-path callback the
`err` label then repeats). -/
def ble_gattc_write_long_rx_prep (p : WriteLongProc)
    (status handle offset : Nat) (rxom : List Nat)
    (mtu : Nat) (allocOk : Bool) (txStatus : Nat) :
    Nat × WriteLongProc × List GEvent :=
  if status ≠ 0 then
    (BLE_HS_EDONE, p, [.wlCb p.connHandle status 0])
  else if p.om.length ≤ p.attrOffset then
    (BLE_HS_EDONE, p, [.wlCb p.connHandle BLE_HS_EBADDATA 0])
  else if handle ≠ p.attrHandle then
    (BLE_HS_EDONE, p, [.wlCb p.connHandle BLE_HS_EBADDATA 0])
  else if offset ≠ p.attrOffset then
    (BLE_HS_EDONE, p, [.wlCb p.connHandle BLE_HS_EBADDATA 0])
  else if p.om.length < offset + rxom.length then
    (BLE_HS_EDONE, p, [.wlCb p.connHandle BLE_HS_EBADDATA 0])
  else if rxom.length ≠ p.length then
    (BLE_HS_EDONE, p, [.wlCb p.connHandle BLE_HS_EBADDATA 0])
  else if rxom ≠ (p.om.drop offset).take p.length then
    (BLE_HS_EDONE, p,
     [.txExecWrite p.connHandle p.cid BLE_ATT_EXEC_WRITE_F_CANCEL,
      .wlCb p.connHandle BLE_HS_EBADDATA 0])
  else
    let p2 := { p with attrOffset := p.attrOffset + rxom.length }
    let r := ble_gattc_write_long_resume p2 mtu allocOk txStatus
    if r.1 ≠ 0 then (BLE_HS_EDONE, r.2.1, r.2.2 ++ [.wlCb r.2.1.connHandle r.1 0])
    else (0, r.2.1, r.2.2)

/-! ### C5: discover all services, attribute-data entries -/

/-- The `disc_all_svcs` variant of the procedure union
(`ble_gattc.c` lines 131-135), with the record's identity fields. -/
structure DiscAllSvcsProc where
  connHandle : Nat
  cid : Nat
  flags : Nat
  prevHandle : Nat
deriving DecidableEq, Repr

/-- One attribute-data entry of a Read By Group Type response
(`struct ble_att_read_group_type_adata`); `valueLen` is the length of
the service-UUID value bytes. -/
structure AdataEntry where
  attHandle : Nat
  endGroupHandle : Nat
  valueLen : Nat
deriving DecidableEq, Repr

/-- `ble_gattc_disc_all_svcs_rx_adata` (`ble_gattc.c` lines 1715-1761).
`cbRet` is the application streaming callback's return value when the
entry is delivered as a service.  A value length other than 2 or 16, or
an `end_group_handle` not above `prev_handle`, yields a
`BLE_HS_EBADDATA` callback (whose service argument is
partially-initialized, modelled `none`) and ends the procedure
(`BLE_HS_EDONE`); otherwise `prev_handle` is advanced to
`end_group_handle` before the service is reported. -/
def ble_gattc_disc_all_svcs_rx_adata (p : DiscAllSvcsProc)
    (adata : AdataEntry) (cbRet : Nat) :
    Nat × DiscAllSvcsProc × List GEvent :=
  if adata.valueLen = 2 ∨ adata.valueLen = 16 then
    if adata.endGroupHandle ≤ p.prevHandle then
      (BLE_HS_EDONE, p, [.svcCb p.connHandle BLE_HS_EBADDATA none])
    else
      let p2 := { p with prevHandle := adata.endGroupHandle }
      let ev := GEvent.svcCb p.connHandle 0 (some (adata.attHandle, adata.endGroupHandle))
      if cbRet ≠ 0 then (BLE_HS_EDONE, p2, [ev])
      else (0, p2, [ev])
  else
    (BLE_HS_EDONE, p, [.svcCb p.connHandle BLE_HS_EBADDATA none])

/-! ### C6: failing all procedures of a connection -/

/-- `ble_gattc_proc_matches_conn_op` (`ble_gattc.c` lines 966-982):
connection handle must match; `BLE_GATT_OP_NONE` matches any op. -/
def ble_gattc_proc_matches_conn_op (connHandle op : Nat) (p : GattProc) : Bool :=
  connHandle = p.connHandle ∧ (op = p.op ∨ op = BLE_GATT_OP_NONE)

/-- `ble_gattc_fail_procs` (`ble_gattc.c` lines 1263-1285): extract every
record matching `(conn_handle, op)` (scan order), then for each in turn
invoke the kind's error handler with `status` and free the record. -/
def ble_gattc_fail_procs (connHandle op status : Nat)
    (procs : List GattProc) : List GattProc × List GEvent :=
  let matched := procs.filter (ble_gattc_proc_matches_conn_op connHandle op)
  let rest := procs.filter (fun p => ! ble_gattc_proc_matches_conn_op connHandle op p)
  (rest, matched.flatMap (fun p => [.errCb p status 0, .procFreed p]))

/-- `ble_gattc_connection_broken` (`ble_gattc.c` lines 6008-6024),
procedure-table part: fail every procedure of the connection with
`BLE_HS_ENOTCONN`.  (The function additionally drains the connection
object's `att_tx_q`, which is not part of the procedure table.) -/
def ble_gattc_connection_broken (connHandle : Nat)
    (procs : List GattProc) : List GattProc × List GEvent :=
  ble_gattc_fail_procs connHandle BLE_GATT_OP_NONE BLE_HS_ENOTCONN procs

/-! ### C4 and C7: timer, expiry, stall and resume -/

/-- The `time_diff` computed by `ble_gattc_proc_matches_expired`
(`ble_gattc.c` lines 1012-1032): the `uint32_t` difference
`exp_os_ticks - now`, later read as `int32_t`. -/
def ble_gattc_proc_time_diff (now : Nat) (p : GattProc) : Nat :=
  u32sub p.expOsTicks now

/-- `ble_gattc_proc_matches_expired`: the procedure is expired when the
signed difference is `<= 0`. -/
def ble_gattc_proc_matches_expired (now : Nat) (p : GattProc) : Bool :=
  i32NonPos (ble_gattc_proc_time_diff now p)

/-- `ble_gattc_extract_expired` (`ble_gattc.c` lines 1202-1214): remove
every expired record (scan order) and report the minimum positive
`time_diff` among the survivors (`BLE_HS_FOREVER` if none). -/
def ble_gattc_extract_expired (now : Nat) (procs : List GattProc) :
    List GattProc × List GattProc × Nat :=
  let expired := procs.filter (ble_gattc_proc_matches_expired now)
  let remaining := procs.filter (fun p => ! ble_gattc_proc_matches_expired now p)
  (expired, remaining,
   remaining.foldl (fun acc p => min acc (ble_gattc_proc_time_diff now p)) BLE_HS_FOREVER)

/-- `ble_gattc_proc_set_resume_timer` (`ble_gattc.c` lines 851-868):
mark the record STALLED; arm the single global resume clock to
`now + RESUME_RATE` only when it is unset (0 means unset, so an armed
value of 0 is bumped to 1). -/
def ble_gattc_proc_set_resume_timer (now resumeAt : Nat) (p : GattProc) :
    GattProc × Nat :=
  let p2 := { p with flags := p.flags ||| BLE_GATTC_PROC_F_STALLED }
  if resumeAt = 0 then
    let t := u32 (now + ble_npl_time_ms_to_ticks32 BLE_GATT_RESUME_RATE)
    (p2, if t = 0 then 1 else t)
  else (p2, resumeAt)

/-- `ble_gattc_process_resume_status` (`ble_gattc.c` lines 898-912),
record-level view threading the global resume clock. -/
def ble_gattc_process_resume_status (now resumeAt : Nat) (p : GattProc)
    (status : Nat) : GattProc × Nat × Nat :=
  if status = 0 then (p, resumeAt, 0)
  else if status = BLE_HS_ENOMEM then
    let t := ble_gattc_proc_set_resume_timer now resumeAt p
    (t.1, t.2, 0)
  else (p, resumeAt, status)

/-- Shared shape of the nine kind-specific resume functions (e.g.
`ble_gattc_disc_all_svcs_resume`, lines 1677-1691): re-attempt the
pending TX (`txOf` gives the transport's answer for the record), feed
the status through `ble_gattc_process_resume_status`, and on a fatal
status deliver it through the kind's callback.  Returns the record, the
resume clock, the status, and the events. -/
def ble_gattc_kind_resume (now resumeAt : Nat) (txOf : GattProc → Nat)
    (p : GattProc) : GattProc × Nat × Nat × List GEvent :=
  let status := txOf p
  let r := ble_gattc_process_resume_status now resumeAt p status
  if r.2.2 ≠ 0 then (r.1, r.2.1, r.2.2, [.resumeAttempt p, .errCb r.1 r.2.2 0])
  else (r.1, r.2.1, 0, [.resumeAttempt p])

/-- `ble_gattc_proc_matches_stalled` (`ble_gattc.c` lines 1186-1190). -/
def ble_gattc_proc_matches_stalled (p : GattProc) : Bool :=
  p.flags &&& BLE_GATTC_PROC_F_STALLED ≠ 0

/-- The engine state the timer acts on: the procedure table and the
global `ble_gattc_resume_at` clock (0 = unset). -/
structure GattcEnvState where
  procs : List GattProc
  resumeAt : Nat
deriving DecidableEq, Repr

/-- `ble_gattc_resume_procs` (`ble_gattc.c` lines 1288-1309).  The resume
clock is cleared, every STALLED record is extracted into `stall_list`,
and a `STAILQ_FOREACH` walks that list calling the kind's resume
function and `ble_gattc_process_status` on each record.  The loop body,
however, re-links the record it processed: `ble_gattc_proc_insert` runs
`STAILQ_INSERT_TAIL(&ble_gattc_procs, proc, next)`, which sets
`proc->next = NULL`, and the free path returns the block to the pool
(overwriting the same link field).  The foreach's step then reads that
overwritten link, so the walk ends after the first record and the
records still in `stall_list` are re-inserted into no list (when the
first record is freed the C reads freed memory; the loop is modelled as
ending there as well, the deterministic behavior of the insert path). -/
def ble_gattc_resume_procs (now : Nat) (txOf : GattProc → Nat)
    (s : GattcEnvState) : GattcEnvState × List GEvent :=
  let stalled := s.procs.filter ble_gattc_proc_matches_stalled
  let rest := s.procs.filter (fun p => ! ble_gattc_proc_matches_stalled p)
  match stalled with
  | [] => ({ procs := rest, resumeAt := 0 }, [])
  | q :: _ =>
    let q1 := { q with flags := q.flags &&& 254 }
    let r := ble_gattc_kind_resume now 0 txOf q1
    match ble_gattc_process_status now r.1 r.2.2.1 with
    | .inserted q3 => ({ procs := rest ++ [q3], resumeAt := r.2.1 }, r.2.2.2)
    | .freed q3 => ({ procs := rest, resumeAt := r.2.1 }, r.2.2.2 ++ [.procFreed q3])

/-- `ble_gattc_ticks_until_resume` (`ble_gattc.c` lines 1311-1330). -/
def ble_gattc_ticks_until_resume (now resumeAt : Nat) : Nat :=
  if resumeAt = 0 then BLE_HS_FOREVER
  else
    let d := u32sub resumeAt now
    if i32NonPos d then 0 else d

/-- Result of one `ble_gattc_timer` tick. -/
structure TimerResult where
  state : GattcEnvState
  events : List GEvent
  ticks : Nat
deriving DecidableEq, Repr

/-- `ble_gattc_timer` (`ble_gattc.c` lines 1352-1388): extract the
expired records; for each in turn run the kind's timeout handler (each
`ble_gattc_*_tmo` delivers `BLE_HS_ETIMEOUT` to the procedure's
application callback), terminate the connection with
`BLE_ERR_REM_USER_CONN_TERM`, and free the record; then service the
resume clock if it has fired; return the ticks until the next wake. -/
def ble_gattc_timer (now : Nat) (txOf : GattProc → Nat)
    (s : GattcEnvState) : TimerResult :=
  let ee := ble_gattc_extract_expired now s.procs
  let tmoEvs := ee.1.flatMap (fun p =>
    [GEvent.tmoCb p BLE_HS_ETIMEOUT,
     GEvent.terminate p.connHandle BLE_ERR_REM_USER_CONN_TERM,
     GEvent.procFreed p])
  let s1 : GattcEnvState := { procs := ee.2.1, resumeAt := s.resumeAt }
  if ble_gattc_ticks_until_resume now s1.resumeAt = 0 then
    let r := ble_gattc_resume_procs now txOf s1
    { state := r.1, events := tmoEvs ++ r.2,
      ticks := min ee.2.2 (ble_gattc_ticks_until_resume now r.1.resumeAt) }
  else
    { state := s1, events := tmoEvs,
      ticks := min ee.2.2 (ble_gattc_ticks_until_resume now s1.resumeAt) }

/-! ### C10: the ATT error-response dispatcher -/

/-- `ble_gattc_proc_matches_conn_cid_op` (`ble_gattc.c` lines 985-1005). -/
def ble_gattc_proc_matches_conn_cid_op (connHandle cid op : Nat)
    (p : GattProc) : Bool :=
  connHandle = p.connHandle ∧ cid = p.cid ∧ (op = p.op ∨ op = BLE_GATT_OP_NONE)

/-- `ble_gattc_extract_one` / `ble_gattc_extract` with `max_procs = 1`
(`ble_gattc.c` lines 1065-1145): scan the table in order and detach the
first record satisfying the predicate. -/
def ble_gattc_extract_first (pred : GattProc → Bool) :
    List GattProc → Option GattProc × List GattProc
  | [] => (none, [])
  | p :: rest =>
    if pred p then (some p, rest)
    else
      let (r, l) := ble_gattc_extract_first pred rest
      (r, p :: l)

/-- `ble_gattc_extract_first_by_conn_cid_op` (`ble_gattc.c` lines
1177-1184). -/
def ble_gattc_extract_first_by_conn_cid_op (connHandle cid op : Nat)
    (procs : List GattProc) : Option GattProc × List GattProc :=
  ble_gattc_extract_first (ble_gattc_proc_matches_conn_cid_op connHandle cid op) procs

/-- Result of `ble_gattc_rx_err`: the table afterwards, the events, the
records parked on the auto-pair cached list, and whether the
`proc->error` store was performed with no extracted record (a store
through a null pointer). -/
structure RxErrResult where
  procsAfter : List GattProc
  events : List GEvent
  cached : List GattProc
  nullDerefWrite : Bool
deriving DecidableEq, Repr

/-- `ble_gattc_rx_err` (`ble_gattc.c` lines 5593-5628).  `autoPair` is
`MYNEWT_VAL(BLE_GATTC_AUTO_PAIR)`; `encrypted` is the connection's
`desc.sec_state.encrypted`; `secInitRc` the result of
`ble_gap_security_initiate`.  With `autoPair` the source stores
`handle`/`status` into `proc->error` *before* the `proc != NULL` check;
`nullDerefWrite` records that this store ran with `proc == NULL`.  When
a record is extracted: an unencrypted link with an
insufficient-enc/authen ATT error and a successful security initiation
parks the record on the cached list with no callback; otherwise the
kind's error handler runs with `BLE_HS_ERR_ATT_BASE + status` and the
record is freed. -/
def ble_gattc_rx_err (autoPair encrypted : Bool) (secInitRc : Nat)
    (connHandle cid handle status : Nat) (procs : List GattProc) :
    RxErrResult :=
  let (found, rest) :=
    ble_gattc_extract_first_by_conn_cid_op connHandle cid BLE_GATT_OP_NONE procs
  match found with
  | none =>
    { procsAfter := rest, events := [], cached := [],
      nullDerefWrite := autoPair }
  | some p =>
    if autoPair ∧ ¬ encrypted ∧
        (status = BLE_ATT_ERR_INSUFFICIENT_ENC ∨
         status = BLE_ATT_ERR_INSUFFICIENT_AUTHEN) ∧ secInitRc = 0 then
      { procsAfter := rest, events := [], cached := [p],
        nullDerefWrite := false }
    else
      { procsAfter := rest,
        events := [.errCb p (BLE_HS_ERR_ATT_BASE + status) handle, .procFreed p],
        cached := [], nullDerefWrite := false }

/-! ### C9: notify multiple -/

/-- One `struct ble_gatt_notif` tuple: handle and the length of its
value mbuf. -/
structure NotifTuple where
  handle : Nat
  valueLen : Nat
deriving DecidableEq, Repr

/-- Transmit actions of `ble_gatts_notify_multiple_custom`. -/
inductive NotifyAction where
  /-- `ble_att_clt_tx_notify(conn_handle, tuples[i].handle, tuples[i].value)` -/
  | txNotifySingle (handle : Nat)
  /-- `ble_att_clt_tx_notify_mult(conn_handle, txom)` with the given
      accumulated payload length -/
  | txNotifyMult (payloadLen : Nat)
deriving DecidableEq, Repr

/-- Result of the batching loop and final send of
`ble_gatts_notify_multiple_custom`. -/
structure MultiNotifyResult where
  actions : List NotifyAction
  curChrCnt : Nat
  /-- index into `tuples` read by the final single-notify branch
      (`some i` when `cur_chr_cnt == 1` at loop end) -/
  finalReadIdx : Option Nat
deriving DecidableEq, Repr

/-- `ble_gatts_notify_multiple_custom` (`ble_gattc.c` lines 5291-5329),
batching loop and final send, for a connected peer that supports
Multiple Handle Value Notifications, all tuple values present and every
transport call returning 0.  `mtu` is `ble_att_mtu(conn_handle) - 1` as
computed at line 5244.  A tuple that does not fit while fewer than two
are buffered is sent as a single notification; one that does not fit
with two or more buffered flushes the buffer as a multiple-notification
first; a buffered tuple adds 4 bytes (handle and length) plus its value.
At loop end, with exactly one tuple buffered, the source sends
`tuples[chr_count]` — the index recorded in `finalReadIdx`; otherwise it
flushes the buffer. -/
def ble_gatts_notify_multiple_custom (mtu : Nat) (tuples : List NotifTuple) :
    MultiNotifyResult :=
  let chrCount := tuples.length
  let fin := tuples.foldl
    (fun (acc : Nat × Nat × List NotifyAction) t =>
      let (txomLen, cnt, acts) := acc
      if mtu < txomLen + t.valueLen ∧ cnt < 2 then
        (txomLen, cnt, acts ++ [.txNotifySingle t.handle])
      else if mtu < txomLen + t.valueLen then
        (4 + t.valueLen, 1, acts ++ [.txNotifyMult txomLen])
      else
        (txomLen + 4 + t.valueLen, cnt + 1, acts))
    (0, 0, [])
  let (txomLen, cnt, acts) := fin
  if cnt = 1 then
    { actions := acts, curChrCnt := cnt, finalReadIdx := some chrCount }
  else
    { actions := acts ++ [.txNotifyMult txomLen], curChrCnt := cnt,
      finalReadIdx := none }

/-! ## Theorems -/

/-- C1 counterexample: initiating discover-all-services with the first
Read By Group Type transmit returning `BLE_HS_ENOMEM` does not succeed
and does not keep the record: `ble_gattc_disc_all_svcs` returns the
nonzero `BLE_HS_ENOMEM` and `ble_gattc_process_status` frees the record
instead of inserting it with the STALLED flag. -/
theorem C1_counterexample :
    (ble_gattc_disc_all_svcs 0 1 4 BLE_HS_ENOMEM).rc = BLE_HS_ENOMEM ∧
    BLE_HS_ENOMEM ≠ 0 ∧
    (ble_gattc_disc_all_svcs 0 1 4 BLE_HS_ENOMEM).disposition =
      .freed { connHandle := 1, cid := 4, op := BLE_GATT_OP_DISC_ALL_SVCS,
               flags := 0, expOsTicks := 0 } := by
  decide

/-- C1 (amended): if the first ATT transmit of `ble_gattc_disc_all_svcs`
returns `BLE_HS_ENOMEM`, the initiator fails with `BLE_HS_ENOMEM`, no
application callback is invoked (the only event is the attempted Read By
Group Type transmit over `[1, 0xffff]`), and the procedure record is
freed — it is not inserted into the table and no STALLED flag is set. -/
theorem C1_first_tx_enomem_fails (now connHandle cid : Nat) :
    (ble_gattc_disc_all_svcs now connHandle cid BLE_HS_ENOMEM).rc = BLE_HS_ENOMEM ∧
    (ble_gattc_disc_all_svcs now connHandle cid BLE_HS_ENOMEM).disposition =
      .freed { connHandle := connHandle, cid := cid,
               op := BLE_GATT_OP_DISC_ALL_SVCS, flags := 0, expOsTicks := 0 } ∧
    (ble_gattc_disc_all_svcs now connHandle cid BLE_HS_ENOMEM).events =
      [.txReadGroupType connHandle cid 1 65535] := by
  refine ⟨rfl, ?_, rfl⟩
  simp [ble_gattc_disc_all_svcs, ble_gattc_disc_all_svcs_tx,
        ble_gattc_process_status, BLE_HS_ENOMEM]

/-- C8: `ble_gattc_signed_write` fails with `BLE_HS_EENCRYPT` without
transmitting when the connection is already encrypted; with a readable
security store holding no CSRK it fails with `BLE_HS_EAUTHEN` without
transmitting; and on every failure path the payload buffer is
released. -/
theorem C8_signed_write (connFindRc storeRc txStatus : Nat)
    (encrypted csrkPresent : Bool) :
    (ble_gattc_signed_write 0 true storeRc csrkPresent txStatus =
      { rc := BLE_HS_EENCRYPT, txSent := false, mbufFreed := true }) ∧
    (ble_gattc_signed_write 0 false 0 false txStatus =
      { rc := BLE_HS_EAUTHEN, txSent := false, mbufFreed := true }) ∧
    ((ble_gattc_signed_write connFindRc encrypted storeRc csrkPresent txStatus).rc ≠ 0 →
      (ble_gattc_signed_write connFindRc encrypted storeRc csrkPresent txStatus).mbufFreed = true) := by
  unfold ble_gattc_signed_write
  refine ⟨by simp, by simp [BLE_HS_EAUTHEN], ?_⟩
  split_ifs <;> simp_all

/-- Witness for C8 at concrete inputs. -/
theorem C8_signed_write_witness :
    (ble_gattc_signed_write 0 true 0 true 0 =
      { rc := BLE_HS_EENCRYPT, txSent := false, mbufFreed := true }) ∧
    (ble_gattc_signed_write 0 false 0 false 0 =
      { rc := BLE_HS_EAUTHEN, txSent := false, mbufFreed := true }) ∧
    (ble_gattc_signed_write 0 true 0 true 0).mbufFreed = true :=
  ⟨(C8_signed_write 0 0 0 true true).1,
   (C8_signed_write 0 0 0 true true).2.1,
   (C8_signed_write 0 0 0 true true).2.2 (by decide)⟩

/-- C9: an input on which the final-send branch of
`ble_gatts_notify_multiple_custom` reads one element past the end of the
caller's tuples array: with a single tuple that fits within the MTU the
batching loop ends with exactly one tuple buffered (`cur_chr_cnt = 1`),
and the final single-notification branch reads `tuples[chr_count]` —
index 1 while the valid indices of the length-1 array end at 0 — rather
than the last buffered tuple at index 0. -/
theorem C9_notify_multiple_off_by_one :
    (ble_gatts_notify_multiple_custom 22 [{ handle := 5, valueLen := 3 }]).curChrCnt = 1 ∧
    (ble_gatts_notify_multiple_custom 22 [{ handle := 5, valueLen := 3 }]).finalReadIdx =
      some ([({ handle := 5, valueLen := 3 } : NotifTuple)].length) ∧
    (ble_gatts_notify_multiple_custom 22 [{ handle := 5, valueLen := 3 }]).finalReadIdx ≠
      some 0 := by
  decide

/-- C10 (code-bug exhibit): `ble_gattc_rx_err` on an ATT error event
`(conn=1, cid=4, handle=5, status=1)` matching no in-flight procedure.
With the auto-pair feature compiled in, the `proc->error` store runs even
though no record was extracted — a store through the null `proc` pointer
performed before the source's own `proc != NULL` check — while the table
is left unchanged and no error callback is invoked; with the feature off
the claimed behavior holds exactly (no store, no callback, no change). -/
theorem C10_rx_err_null_store :
    (ble_gattc_rx_err true false 0 1 4 5 1
      [{ connHandle := 2, cid := 4, op := BLE_GATT_OP_READ, flags := 0, expOsTicks := 0 }]).nullDerefWrite = true ∧
    (ble_gattc_rx_err true false 0 1 4 5 1
      [{ connHandle := 2, cid := 4, op := BLE_GATT_OP_READ, flags := 0, expOsTicks := 0 }]).events = [] ∧
    (ble_gattc_rx_err true false 0 1 4 5 1
      [{ connHandle := 2, cid := 4, op := BLE_GATT_OP_READ, flags := 0, expOsTicks := 0 }]).procsAfter =
      [{ connHandle := 2, cid := 4, op := BLE_GATT_OP_READ, flags := 0, expOsTicks := 0 }] ∧
    (ble_gattc_rx_err false false 0 1 4 5 1
      [{ connHandle := 2, cid := 4, op := BLE_GATT_OP_READ, flags := 0, expOsTicks := 0 }]).nullDerefWrite = false ∧
    (ble_gattc_rx_err false false 0 1 4 5 1
      [{ connHandle := 2, cid := 4, op := BLE_GATT_OP_READ, flags := 0, expOsTicks := 0 }]).events = [] ∧
    (ble_gattc_rx_err false false 0 1 4 5 1
      [{ connHandle := 2, cid := 4, op := BLE_GATT_OP_READ, flags := 0, expOsTicks := 0 }]).procsAfter =
      [{ connHandle := 2, cid := 4, op := BLE_GATT_OP_READ, flags := 0, expOsTicks := 0 }] := by
  decide

/-- C3 counterexample: a prepare-write response whose echoed handle (33)
differs from the queued handle (32) produces the terminal
`BLE_HS_EBADDATA` callback with no Execute Write (cancel) transmitted —
the claim's "any mismatch transmits a cancel first" fails on the
handle-mismatch branch. -/
theorem C3_counterexample :
    (ble_gattc_write_long_rx_prep
      { connHandle := 1, cid := 4, flags := 0, attrHandle := 32, attrOffset := 0,
        om := [1, 2, 3, 4, 5, 6, 7, 8], length := 4 }
      0 33 0 [1, 2, 3, 4] 23 true 0).2.2 =
      [.wlCb 1 BLE_HS_EBADDATA 0] ∧
    GEvent.txExecWrite 1 4 BLE_ATT_EXEC_WRITE_F_CANCEL ∉
      (ble_gattc_write_long_rx_prep
        { connHandle := 1, cid := 4, flags := 0, attrHandle := 32, attrOffset := 0,
          om := [1, 2, 3, 4, 5, 6, 7, 8], length := 4 }
        0 33 0 [1, 2, 3, 4] 23 true 0).2.2 := by
  decide

/-- C3 (amended): in `ble_gattc_write_long_rx_prep`, only the
byte-for-byte compare failure transmits an Execute Write (cancel): when
the echoed handle, offset and length all match the queued request but
the echoed bytes differ from the queued slice, the cancel is transmitted
before the single terminal `BLE_HS_EBADDATA` callback; a mismatched
echoed handle, offset, or length instead produces the terminal
`BLE_HS_EBADDATA` callback with no Execute Write transmitted. -/
theorem C3_prep_mismatch (p : WriteLongProc) (handle offset : Nat)
    (rxom : List Nat) (mtu : Nat) (allocOk : Bool) (txStatus : Nat)
    (hin : p.attrOffset < p.om.length) :
    (handle = p.attrHandle → offset = p.attrOffset →
      offset + rxom.length ≤ p.om.length → rxom.length = p.length →
      rxom ≠ (p.om.drop offset).take p.length →
      ble_gattc_write_long_rx_prep p 0 handle offset rxom mtu allocOk txStatus =
        (BLE_HS_EDONE, p,
         [.txExecWrite p.connHandle p.cid BLE_ATT_EXEC_WRITE_F_CANCEL,
          .wlCb p.connHandle BLE_HS_EBADDATA 0])) ∧
    (handle ≠ p.attrHandle ∨ (handle = p.attrHandle ∧ offset ≠ p.attrOffset) ∨
       (handle = p.attrHandle ∧ offset = p.attrOffset ∧
        offset + rxom.length ≤ p.om.length ∧ rxom.length ≠ p.length) →
      ble_gattc_write_long_rx_prep p 0 handle offset rxom mtu allocOk txStatus =
        (BLE_HS_EDONE, p, [.wlCb p.connHandle BLE_HS_EBADDATA 0])) := by
  constructor
  · intro h1 h2 h3 h4 h5
    unfold ble_gattc_write_long_rx_prep
    simp only [h1, h2, h4]
    have hoff : ¬ p.om.length ≤ p.attrOffset := by omega
    have hovf : ¬ p.om.length < p.attrOffset + rxom.length := by omega
    simp [hoff, hovf, h5, h2 ▸ h5]
    omega
  · intro hcase
    unfold ble_gattc_write_long_rx_prep
    have hoff : ¬ p.om.length ≤ p.attrOffset := by omega
    rcases hcase with h | ⟨h1, h2⟩ | ⟨h1, h2, h3, h4⟩
    · simp [hoff, h]
    · simp [hoff, h1, h2]
    · have hovf : ¬ p.om.length < p.attrOffset + rxom.length := by omega
      simp [hoff, h1, h2, hovf, h4]

/-- Witness for C3 at concrete inputs: a byte-compare mismatch with all
echoed fields matching transmits the cancel before the `BLE_HS_EBADDATA`
callback, and a mismatched echoed handle yields the callback alone. -/
theorem C3_prep_mismatch_witness :
    (ble_gattc_write_long_rx_prep
      { connHandle := 1, cid := 4, flags := 0, attrHandle := 32, attrOffset := 0,
        om := [1, 2, 3, 4, 5, 6, 7, 8], length := 4 }
      0 32 0 [9, 9, 9, 9] 23 true 0 =
      (BLE_HS_EDONE,
       { connHandle := 1, cid := 4, flags := 0, attrHandle := 32, attrOffset := 0,
         om := [1, 2, 3, 4, 5, 6, 7, 8], length := 4 },
       [.txExecWrite 1 4 BLE_ATT_EXEC_WRITE_F_CANCEL, .wlCb 1 BLE_HS_EBADDATA 0])) ∧
    (ble_gattc_write_long_rx_prep
      { connHandle := 1, cid := 4, flags := 0, attrHandle := 32, attrOffset := 0,
        om := [1, 2, 3, 4, 5, 6, 7, 8], length := 4 }
      0 33 0 [1, 2, 3, 4] 23 true 0 =
      (BLE_HS_EDONE,
       { connHandle := 1, cid := 4, flags := 0, attrHandle := 32, attrOffset := 0,
         om := [1, 2, 3, 4, 5, 6, 7, 8], length := 4 },
       [.wlCb 1 BLE_HS_EBADDATA 0])) :=
  ⟨(C3_prep_mismatch
      { connHandle := 1, cid := 4, flags := 0, attrHandle := 32, attrOffset := 0,
        om := [1, 2, 3, 4, 5, 6, 7, 8], length := 4 }
      32 0 [9, 9, 9, 9] 23 true 0 (by decide)).1
      rfl rfl (by decide) (by decide) (by decide),
   (C3_prep_mismatch
      { connHandle := 1, cid := 4, flags := 0, attrHandle := 32, attrOffset := 0,
        om := [1, 2, 3, 4, 5, 6, 7, 8], length := 4 }
      33 0 [1, 2, 3, 4] 23 true 0 (by decide)).2
      (Or.inl (by decide))⟩

/-- C5: `prev_handle` advances strictly monotonically in
`ble_gattc_disc_all_svcs_rx_adata`.  For an entry with a valid
service-UUID length: an `end_group_handle` at or below the current
`prev_handle` produces the `BLE_HS_EBADDATA` callback, leaves
`prev_handle` unchanged and ends the dispatch with `BLE_HS_EDONE` — a
status on which `ble_gattc_process_status` frees any record, so no
further data callbacks can follow; a strictly larger `end_group_handle`
is written to `prev_handle` before the service is reported through the
data callback. -/
theorem C5_prev_handle_monotone (p : DiscAllSvcsProc) (adata : AdataEntry)
    (cbRet : Nat) (hlen : adata.valueLen = 2 ∨ adata.valueLen = 16) :
    (adata.endGroupHandle ≤ p.prevHandle →
      ble_gattc_disc_all_svcs_rx_adata p adata cbRet =
        (BLE_HS_EDONE, p, [.svcCb p.connHandle BLE_HS_EBADDATA none]) ∧
      ∀ now q, ble_gattc_process_status now q BLE_HS_EDONE = .freed q) ∧
    (p.prevHandle < adata.endGroupHandle →
      (ble_gattc_disc_all_svcs_rx_adata p adata cbRet).2.1.prevHandle =
        adata.endGroupHandle ∧
      p.prevHandle < (ble_gattc_disc_all_svcs_rx_adata p adata cbRet).2.1.prevHandle ∧
      (ble_gattc_disc_all_svcs_rx_adata p adata cbRet).2.2 =
        [.svcCb p.connHandle 0 (some (adata.attHandle, adata.endGroupHandle))]) := by
  constructor
  · intro hle
    refine ⟨?_, ?_⟩
    · unfold ble_gattc_disc_all_svcs_rx_adata
      simp [hlen, hle]
    · intro now q
      simp [ble_gattc_process_status, BLE_HS_EDONE]
  · intro hgt
    have hle : ¬ adata.endGroupHandle ≤ p.prevHandle := by omega
    unfold ble_gattc_disc_all_svcs_rx_adata
    rcases Nat.eq_zero_or_pos cbRet with h0 | hpos
    · simp [hlen, hle, h0, hgt]
    · have : cbRet ≠ 0 := by omega
      simp [hlen, hle, this, hgt]

/-- Witness for C5 at concrete inputs: an out-of-order entry
(`end_group = 3 ≤ prev = 7`) and an in-order entry (`end_group = 11`). -/
theorem C5_prev_handle_monotone_witness :
    (ble_gattc_disc_all_svcs_rx_adata
        { connHandle := 1, cid := 4, flags := 0, prevHandle := 7 }
        { attHandle := 2, endGroupHandle := 3, valueLen := 2 } 0 =
      (BLE_HS_EDONE, { connHandle := 1, cid := 4, flags := 0, prevHandle := 7 },
       [.svcCb 1 BLE_HS_EBADDATA none])) ∧
    (ble_gattc_disc_all_svcs_rx_adata
        { connHandle := 1, cid := 4, flags := 0, prevHandle := 7 }
        { attHandle := 9, endGroupHandle := 11, valueLen := 2 } 0).2.1.prevHandle = 11 :=
  ⟨((C5_prev_handle_monotone
      { connHandle := 1, cid := 4, flags := 0, prevHandle := 7 }
      { attHandle := 2, endGroupHandle := 3, valueLen := 2 } 0
      (Or.inl rfl)).1 (by decide)).1,
   ((C5_prev_handle_monotone
      { connHandle := 1, cid := 4, flags := 0, prevHandle := 7 }
      { attHandle := 9, endGroupHandle := 11, valueLen := 2 } 0
      (Or.inl rfl)).2 (by decide)).1⟩

/-- C2: for `ble_gattc_read_long_rx_read_rsp` on a successful response
(`status = 0`), a consenting application callback (`cbRet = 0`), a
connected channel (`2 ≤ mtu`), no 16-bit offset wrap, and a transport
status that is not the `BLE_HS_EDONE` sentinel: the chunk is delivered
to the callback at the procedure's current offset; the procedure
terminates with the `BLE_HS_EDONE` ("Done") callback iff
`dataLen < mtu - 1`; and otherwise the offset advances by exactly
`dataLen` and a follow-up Read Blob at the new offset is issued. -/
theorem C2_read_long_chunk (p : ReadLongProc) (dataLen mtu txStatus : Nat)
    (hmtu : 2 ≤ mtu) (hwrap : p.offset + dataLen < 65536)
    (htx : txStatus ≠ BLE_HS_EDONE) :
    ((ble_gattc_read_long_rx_read_rsp p 0 dataLen mtu 0 txStatus).2.2.head? =
      some (.rlCb p.connHandle 0 0 (some (p.handle, p.offset, dataLen)))) ∧
    ((GEvent.rlCb p.connHandle BLE_HS_EDONE 0 none ∈
        (ble_gattc_read_long_rx_read_rsp p 0 dataLen mtu 0 txStatus).2.2) ↔
      dataLen < mtu - 1) ∧
    (dataLen < mtu - 1 →
      (ble_gattc_read_long_rx_read_rsp p 0 dataLen mtu 0 txStatus).1 = BLE_HS_EDONE) ∧
    (¬ dataLen < mtu - 1 →
      (ble_gattc_read_long_rx_read_rsp p 0 dataLen mtu 0 txStatus).2.1.offset =
        p.offset + dataLen ∧
      GEvent.txReadBlob p.connHandle p.cid p.handle (p.offset + dataLen) ∈
        (ble_gattc_read_long_rx_read_rsp p 0 dataLen mtu 0 txStatus).2.2) := by
  have hm0 : ¬ mtu = 0 := by omega
  have hu : u16 (p.offset + dataLen) = p.offset + dataLen := Nat.mod_eq_of_lt hwrap
  have htx' : ¬ (14 : Nat) = txStatus := by
    intro h
    exact htx (by simpa [BLE_HS_EDONE] using h.symm)
  by_cases hd : dataLen < mtu - 1
  · refine ⟨?_, ?_, ?_, ?_⟩ <;>
      simp [ble_gattc_read_long_rx_read_rsp, hm0, hd, BLE_HS_EDONE]
  · have hpos : ¬ p.offset + dataLen = 0 := by omega
    by_cases h0 : txStatus = 0
    · refine ⟨?_, ?_, ?_, ?_⟩ <;>
        simp [ble_gattc_read_long_rx_read_rsp, ble_gattc_read_long_resume,
              ble_gattc_read_long_tx, ble_gattc_process_resume_status_flags,
              hm0, hd, hu, hpos, h0, BLE_HS_EDONE]
    · by_cases hE : txStatus = BLE_HS_ENOMEM
      · refine ⟨?_, ?_, ?_, ?_⟩ <;>
          simp [ble_gattc_read_long_rx_read_rsp, ble_gattc_read_long_resume,
                ble_gattc_read_long_tx, ble_gattc_process_resume_status_flags,
                hm0, hd, hu, hpos, hE, BLE_HS_EDONE, BLE_HS_ENOMEM]
      · refine ⟨?_, ?_, ?_, ?_⟩ <;>
          simp [ble_gattc_read_long_rx_read_rsp, ble_gattc_read_long_resume,
                ble_gattc_read_long_tx, ble_gattc_process_resume_status_flags,
                hm0, hd, hu, hpos, h0, hE, htx', BLE_HS_EDONE]

/-- Witness for C2 at concrete inputs: a 22-byte chunk at offset 0 with
MTU 23 is not final; the offset advances to 22 and a Read Blob at 22 is
issued. -/
theorem C2_read_long_chunk_witness :
    (ble_gattc_read_long_rx_read_rsp
        { connHandle := 1, cid := 4, flags := 0, handle := 16, offset := 0 }
        0 22 23 0 0).2.1.offset = 0 + 22 ∧
    GEvent.txReadBlob 1 4 16 (0 + 22) ∈
      (ble_gattc_read_long_rx_read_rsp
        { connHandle := 1, cid := 4, flags := 0, handle := 16, offset := 0 }
        0 22 23 0 0).2.2 :=
  (C2_read_long_chunk
    { connHandle := 1, cid := 4, flags := 0, handle := 16, offset := 0 }
    22 23 0 (by decide) (by decide) (by decide)).2.2.2 (by decide)

/-! ### Helper lemmas shared by the table-level theorems -/

/-- In the event stream of `ble_gattc_fail_procs`, the error callback
for a given record occurs as many times as the record occurs in the
extracted list. -/
theorem fail_events_count (status : Nat) (l : List GattProc) (p : GattProc) :
    (l.flatMap (fun q => [GEvent.errCb q status 0, GEvent.procFreed q])).count
      (GEvent.errCb p status 0) = l.count p := by
  induction l with
  | nil => rfl
  | cons q rest ih =>
    by_cases h : q = p
    · subst h
      simp [List.count_cons, ih]
    · simp [List.count_cons, ih, h]

/-- Expiry depends only on the record's deadline field. -/
theorem matches_expired_only_ticks (now : Nat) (p q : GattProc)
    (h : p.expOsTicks = q.expOsTicks) :
    ble_gattc_proc_matches_expired now p = ble_gattc_proc_matches_expired now q := by
  simp [ble_gattc_proc_matches_expired, ble_gattc_proc_time_diff, u32sub, h]

/-- A record whose expiry timer was just set for `now` is not expired at
`now` (its signed time difference is the full 30-second window). -/
theorem set_exp_timer_not_expired (now : Nat) (p : GattProc) :
    ble_gattc_proc_matches_expired now (ble_gattc_proc_set_exp_timer now p) = false := by
  simp only [ble_gattc_proc_matches_expired, ble_gattc_proc_set_exp_timer,
    ble_gattc_proc_time_diff, u32sub, u32, U32, i32NonPos,
    ble_npl_time_ms_to_ticks32, BLE_GATTC_UNRESPONSIVE_TIMEOUT_MS,
    decide_eq_false_iff_not]
  omega

/-- `ble_gattc_proc_set_resume_timer` touches only the flags and the
resume clock, never the deadline. -/
theorem set_resume_timer_ticks (now r : Nat) (p : GattProc) :
    (ble_gattc_proc_set_resume_timer now r p).1.expOsTicks = p.expOsTicks := by
  unfold ble_gattc_proc_set_resume_timer
  split_ifs <;> rfl

/-- `ble_gattc_process_resume_status` never changes the deadline. -/
theorem process_resume_status_ticks (now r : Nat) (p : GattProc) (st : Nat) :
    (ble_gattc_process_resume_status now r p st).1.expOsTicks = p.expOsTicks := by
  simp only [ble_gattc_process_resume_status]
  split_ifs <;> simp [set_resume_timer_ticks]

/-- A kind resume function never changes the deadline. -/
theorem kind_resume_ticks (now r : Nat) (txOf : GattProc → Nat) (p : GattProc) :
    (ble_gattc_kind_resume now r txOf p).1.expOsTicks = p.expOsTicks := by
  simp only [ble_gattc_kind_resume]
  split_ifs <;> simp [process_resume_status_ticks]

/-- A record inserted by `ble_gattc_process_status` from a record that
was not expired at `now` is itself not expired at `now`. -/
theorem process_status_inserted_not_expired (now : Nat) (q q3 : GattProc)
    (st : Nat) (h : ble_gattc_process_status now q st = .inserted q3)
    (hq : ble_gattc_proc_matches_expired now q = false) :
    ble_gattc_proc_matches_expired now q3 = false := by
  unfold ble_gattc_process_status at h
  split_ifs at h with h0 hf
  · injection h with h2
    rw [← h2]
    exact set_exp_timer_not_expired now q
  · injection h with h2
    rw [← h2]
    exact hq

/-- If no record of the table is expired at `now`, no record of the
table left by `ble_gattc_resume_procs` is expired at `now`: the sweep
only toggles flags, renews a deadline to the full window, or frees. -/
theorem resume_procs_not_expired (now : Nat) (txOf : GattProc → Nat)
    (s : GattcEnvState)
    (hall : ∀ q ∈ s.procs, ble_gattc_proc_matches_expired now q = false) :
    ∀ x ∈ (ble_gattc_resume_procs now txOf s).1.procs,
      ble_gattc_proc_matches_expired now x = false := by
  intro x hx
  unfold ble_gattc_resume_procs at hx
  rcases hfl : s.procs.filter ble_gattc_proc_matches_stalled with _ | ⟨q, qs⟩
  · rw [hfl] at hx
    simp only at hx
    exact hall x (List.mem_of_mem_filter hx)
  · rw [hfl] at hx
    simp only at hx
    have hqmem : q ∈ s.procs := by
      have : q ∈ s.procs.filter ble_gattc_proc_matches_stalled := by
        rw [hfl]; exact List.mem_cons_self q qs
      exact List.mem_of_mem_filter this
    have hqne : ble_gattc_proc_matches_expired now q = false := hall q hqmem
    have hticks :
        (ble_gattc_kind_resume now 0 txOf { q with flags := q.flags &&& 254 }).1.expOsTicks
          = q.expOsTicks :=
      kind_resume_ticks now 0 txOf { q with flags := q.flags &&& 254 }
    have hr1ne :
        ble_gattc_proc_matches_expired now
          (ble_gattc_kind_resume now 0 txOf { q with flags := q.flags &&& 254 }).1 = false := by
      rw [matches_expired_only_ticks now _ q hticks]
      exact hqne
    rcases hps : ble_gattc_process_status now
        (ble_gattc_kind_resume now 0 txOf { q with flags := q.flags &&& 254 }).1
        (ble_gattc_kind_resume now 0 txOf { q with flags := q.flags &&& 254 }).2.2.1
      with q3 | q3
    · rw [hps] at hx
      simp only at hx
      rcases List.mem_append.1 hx with hx1 | hx1
      · exact hall x (List.mem_of_mem_filter hx1)
      · have hxq3 : x = q3 := by simpa using hx1
        rw [hxq3]
        exact process_status_inserted_not_expired now _ q3 _ hps hr1ne
    · rw [hps] at hx
      simp only at hx
      exact hall x (List.mem_of_mem_filter hx)

/-- C4: every in-flight procedure whose 30-second deadline has expired
at a timer tick is fully handled by `ble_gattc_timer`: its kind's
timeout handler runs (delivering `BLE_HS_ETIMEOUT` to the application
callback), the underlying connection is terminated with reason
`BLE_ERR_REM_USER_CONN_TERM` via `ble_gap_terminate`, and the record is
freed — it is no longer in the table the timer leaves behind. -/
theorem C4_timer_expired (now : Nat) (txOf : GattProc → Nat)
    (s : GattcEnvState) (p : GattProc)
    (hmem : p ∈ s.procs)
    (hexp : ble_gattc_proc_matches_expired now p = true) :
    GEvent.tmoCb p BLE_HS_ETIMEOUT ∈ (ble_gattc_timer now txOf s).events ∧
    GEvent.terminate p.connHandle BLE_ERR_REM_USER_CONN_TERM ∈
      (ble_gattc_timer now txOf s).events ∧
    GEvent.procFreed p ∈ (ble_gattc_timer now txOf s).events ∧
    p ∉ (ble_gattc_timer now txOf s).state.procs := by
  have hpe : p ∈ (ble_gattc_extract_expired now s.procs).1 := by
    unfold ble_gattc_extract_expired
    exact List.mem_filter.2 ⟨hmem, hexp⟩
  have hrem : ∀ q ∈ (ble_gattc_extract_expired now s.procs).2.1,
      ble_gattc_proc_matches_expired now q = false := by
    intro q hq
    unfold ble_gattc_extract_expired at hq
    have h2 := (List.mem_filter.1 hq).2
    simpa using h2
  have hevents : ∀ evs2 : List GEvent,
      GEvent.tmoCb p BLE_HS_ETIMEOUT ∈
        ((ble_gattc_extract_expired now s.procs).1.flatMap (fun q =>
          [GEvent.tmoCb q BLE_HS_ETIMEOUT,
           GEvent.terminate q.connHandle BLE_ERR_REM_USER_CONN_TERM,
           GEvent.procFreed q]) ++ evs2) ∧
      GEvent.terminate p.connHandle BLE_ERR_REM_USER_CONN_TERM ∈
        ((ble_gattc_extract_expired now s.procs).1.flatMap (fun q =>
          [GEvent.tmoCb q BLE_HS_ETIMEOUT,
           GEvent.terminate q.connHandle BLE_ERR_REM_USER_CONN_TERM,
           GEvent.procFreed q]) ++ evs2) ∧
      GEvent.procFreed p ∈
        ((ble_gattc_extract_expired now s.procs).1.flatMap (fun q =>
          [GEvent.tmoCb q BLE_HS_ETIMEOUT,
           GEvent.terminate q.connHandle BLE_ERR_REM_USER_CONN_TERM,
           GEvent.procFreed q]) ++ evs2) := by
    intro evs2
    refine ⟨?_, ?_, ?_⟩ <;>
      exact List.mem_append_left _ (List.mem_flatMap.2 ⟨p, hpe, by simp⟩)
  simp only [ble_gattc_timer]
  split_ifs with htur
  · refine ⟨(hevents _).1, (hevents _).2.1, (hevents _).2.2, ?_⟩
    intro hin
    have hne := resume_procs_not_expired now txOf
      { procs := (ble_gattc_extract_expired now s.procs).2.1, resumeAt := s.resumeAt }
      hrem p hin
    rw [hexp] at hne
    exact absurd hne (by simp)
  · refine ⟨?_, ?_, ?_, ?_⟩
    · simpa using (hevents []).1
    · simpa using (hevents []).2.1
    · simpa using (hevents []).2.2
    · intro hin
      have hne := hrem p hin
      rw [hexp] at hne
      exact absurd hne (by simp)

/-- Witness for C4 at concrete inputs: a record with deadline 0 is
expired at tick 1; the timer delivers its timeout callback, terminates
connection 1 and removes the record. -/
theorem C4_timer_expired_witness :
    GEvent.tmoCb { connHandle := 1, cid := 4, op := 0, flags := 0, expOsTicks := 0 }
        BLE_HS_ETIMEOUT ∈
      (ble_gattc_timer 1 (fun _ => 0)
        { procs := [{ connHandle := 1, cid := 4, op := 0, flags := 0, expOsTicks := 0 }],
          resumeAt := 0 }).events ∧
    GEvent.terminate 1 BLE_ERR_REM_USER_CONN_TERM ∈
      (ble_gattc_timer 1 (fun _ => 0)
        { procs := [{ connHandle := 1, cid := 4, op := 0, flags := 0, expOsTicks := 0 }],
          resumeAt := 0 }).events ∧
    GEvent.procFreed { connHandle := 1, cid := 4, op := 0, flags := 0, expOsTicks := 0 } ∈
      (ble_gattc_timer 1 (fun _ => 0)
        { procs := [{ connHandle := 1, cid := 4, op := 0, flags := 0, expOsTicks := 0 }],
          resumeAt := 0 }).events ∧
    { connHandle := 1, cid := 4, op := 0, flags := 0, expOsTicks := 0 } ∉
      (ble_gattc_timer 1 (fun _ => 0)
        { procs := [{ connHandle := 1, cid := 4, op := 0, flags := 0, expOsTicks := 0 }],
          resumeAt := 0 }).state.procs :=
  C4_timer_expired 1 (fun _ => 0)
    { procs := [{ connHandle := 1, cid := 4, op := 0, flags := 0, expOsTicks := 0 }],
      resumeAt := 0 }
    { connHandle := 1, cid := 4, op := 0, flags := 0, expOsTicks := 0 }
    (by decide) (by decide)

/-- C6: `ble_gattc_connection_broken` delivers exactly one
`BLE_HS_ENOTCONN` error callback to each in-flight procedure on the
broken connection and frees each such record; afterwards the table holds
no record for that connection, and records of other connections are
untouched (still in the table). -/
theorem C6_connection_broken (connHandle : Nat) (procs : List GattProc)
    (hnd : procs.Nodup) :
    (∀ p ∈ procs, p.connHandle = connHandle →
      (ble_gattc_connection_broken connHandle procs).2.count
          (GEvent.errCb p BLE_HS_ENOTCONN 0) = 1 ∧
      GEvent.procFreed p ∈ (ble_gattc_connection_broken connHandle procs).2) ∧
    (∀ q ∈ (ble_gattc_connection_broken connHandle procs).1,
      q.connHandle ≠ connHandle) ∧
    (∀ q ∈ procs, q.connHandle ≠ connHandle →
      q ∈ (ble_gattc_connection_broken connHandle procs).1) := by
  unfold ble_gattc_connection_broken ble_gattc_fail_procs
  refine ⟨?_, ?_, ?_⟩
  · intro p hp hconn
    have hpred :
        ble_gattc_proc_matches_conn_op connHandle BLE_GATT_OP_NONE p = true := by
      simp [ble_gattc_proc_matches_conn_op, hconn]
    have hmem :
        p ∈ procs.filter (ble_gattc_proc_matches_conn_op connHandle BLE_GATT_OP_NONE) :=
      List.mem_filter.2 ⟨hp, hpred⟩
    constructor
    · rw [fail_events_count]
      exact List.count_eq_one_of_mem (hnd.filter _) hmem
    · exact List.mem_flatMap.2 ⟨p, hmem, by simp⟩
  · intro q hq hc
    have h2 := (List.mem_filter.1 hq).2
    simp only [ble_gattc_proc_matches_conn_op, decide_not,
      Bool.not_eq_true', decide_eq_false_iff_not] at h2
    exact h2 ⟨hc.symm, Or.inr trivial⟩
  · intro q hq hneq
    refine List.mem_filter.2 ⟨hq, ?_⟩
    simp only [ble_gattc_proc_matches_conn_op, decide_not,
      Bool.not_eq_true', decide_eq_false_iff_not]
    intro hcontra
    exact hneq hcontra.1.symm

/-- Witness for C6 at concrete inputs: three procedures on connection 1
and one on connection 2. -/
theorem C6_connection_broken_witness :
    ((ble_gattc_connection_broken 1
        [{ connHandle := 1, cid := 4, op := 7, flags := 0, expOsTicks := 0 },
         { connHandle := 1, cid := 4, op := 12, flags := 0, expOsTicks := 0 },
         { connHandle := 2, cid := 4, op := 15, flags := 0, expOsTicks := 0 }]).2.count
      (GEvent.errCb { connHandle := 1, cid := 4, op := 7, flags := 0, expOsTicks := 0 }
        BLE_HS_ENOTCONN 0) = 1) ∧
    { connHandle := 2, cid := 4, op := 15, flags := 0, expOsTicks := 0 } ∈
      (ble_gattc_connection_broken 1
        [{ connHandle := 1, cid := 4, op := 7, flags := 0, expOsTicks := 0 },
         { connHandle := 1, cid := 4, op := 12, flags := 0, expOsTicks := 0 },
         { connHandle := 2, cid := 4, op := 15, flags := 0, expOsTicks := 0 }]).1 :=
  ⟨((C6_connection_broken 1
      [{ connHandle := 1, cid := 4, op := 7, flags := 0, expOsTicks := 0 },
       { connHandle := 1, cid := 4, op := 12, flags := 0, expOsTicks := 0 },
       { connHandle := 2, cid := 4, op := 15, flags := 0, expOsTicks := 0 }]
      (by decide)).1
      { connHandle := 1, cid := 4, op := 7, flags := 0, expOsTicks := 0 }
      (by decide) rfl).1,
   (C6_connection_broken 1
      [{ connHandle := 1, cid := 4, op := 7, flags := 0, expOsTicks := 0 },
       { connHandle := 1, cid := 4, op := 12, flags := 0, expOsTicks := 0 },
       { connHandle := 2, cid := 4, op := 15, flags := 0, expOsTicks := 0 }]
      (by decide)).2.2
      { connHandle := 2, cid := 4, op := 15, flags := 0, expOsTicks := 0 }
      (by decide) (by decide)⟩

/-- C7 (code-bug exhibit): at a tick where the resume clock (armed at 7)
has fired by `now = 10` with two procedures stalled by OutOfMemory and
the transport still returning `BLE_HS_ENOMEM`, `ble_gattc_timer` makes a
resume attempt only for the first stalled procedure — which is
re-stalled with its deadline (100000) unchanged and the clock re-armed
to `now + RESUME_RATE` — while the second stalled procedure receives no
resume attempt and is gone from the table without being freed or failed:
re-inserting the first record overwrote the `STAILQ` link the
`STAILQ_FOREACH` of `ble_gattc_resume_procs` then reads, ending the
sweep early and dropping the rest of `stall_list`. -/
theorem C7_resume_drops_stalled :
    (ble_gattc_timer 10 (fun _ => BLE_HS_ENOMEM)
      { procs :=
          [{ connHandle := 1, cid := 4, op := 1, flags := 1, expOsTicks := 100000 },
           { connHandle := 1, cid := 5, op := 9, flags := 1, expOsTicks := 100000 }],
        resumeAt := 7 }).events =
      [GEvent.resumeAttempt
        { connHandle := 1, cid := 4, op := 1, flags := 0, expOsTicks := 100000 }] ∧
    (ble_gattc_timer 10 (fun _ => BLE_HS_ENOMEM)
      { procs :=
          [{ connHandle := 1, cid := 4, op := 1, flags := 1, expOsTicks := 100000 },
           { connHandle := 1, cid := 5, op := 9, flags := 1, expOsTicks := 100000 }],
        resumeAt := 7 }).state.procs =
      [{ connHandle := 1, cid := 4, op := 1, flags := 1, expOsTicks := 100000 }] ∧
    (ble_gattc_timer 10 (fun _ => BLE_HS_ENOMEM)
      { procs :=
          [{ connHandle := 1, cid := 4, op := 1, flags := 1, expOsTicks := 100000 },
           { connHandle := 1, cid := 5, op := 9, flags := 1, expOsTicks := 100000 }],
        resumeAt := 7 }).state.resumeAt = 1010 := by
  decide

end BleGattc
